import Mathlib

/-!
Verification of the cec-follower core (v4l-utils, src/utils/cec-follower/cec-follower.cpp):
the Short Audio Descriptor encoder `sad_encode`, the per-logical-address
last-activity timestamp update performed by `cec_named_ioctl`, and the
`--ignore` option processing in `main`.

Machine integers are modelled as `Nat` with explicit masking/`% 2^w`
exactly where the C code stores into a fixed-width field.
-/

/-! ## Short Audio Descriptor codec -/

/-- Audio format code for linear PCM (cec-follower.h). -/
def SAD_FMT_CODE_LPCM : Nat := 1

/-- Audio format code for WMA Pro (cec-follower.h). -/
def SAD_FMT_CODE_WMA_PRO : Nat := 14

/-- Audio format code selecting the extended (extension-type) encoding. -/
def SAD_FMT_CODE_EXTENDED : Nat := 15

/-- Modelled from the spec: the extension-type code constants are declared in
cec-follower.h, which is not among the staged source files; the spec (§4.1)
names MPEG-H 3D Audio, AC-4 and L-PCM 3D Audio as three distinct extended
types sharing the bit-depth branch. The numeric values are the CTA-861
audio coding extension type codes. -/
def SAD_EXT_TYPE_MPEG_H_3D_AUDIO : Nat := 11

/-- Modelled from the spec: see `SAD_EXT_TYPE_MPEG_H_3D_AUDIO`. -/
def SAD_EXT_TYPE_AC_4 : Nat := 12

/-- Modelled from the spec: see `SAD_EXT_TYPE_MPEG_H_3D_AUDIO`. -/
def SAD_EXT_TYPE_LPCM_3D_AUDIO : Nat := 13

/-- One audio-capability record (struct short_audio_desc). The struct is
declared in cec-follower.h (outside the staged sources); per the spec's data
model (§3) it carries a channel count, a format code and a closed set of
format-dependent fields. Each field models an 8-bit (or narrower) C storage
location holding a natural value. -/
structure short_audio_desc where
  num_channels : Nat
  format_code : Nat
  sample_freq_mask : Nat
  bit_depth_mask : Nat
  max_bitrate : Nat
  format_dependent : Nat
  wma_profile : Nat
  extension_type_code : Nat
  frame_length_mask : Nat
  mps : Nat
deriving DecidableEq

/-- Byte 1 computed by `sad_encode` (cec-follower.cpp:104-105):
`b1 = (num_channels - 1) & 0x07; b1 |= (format_code & 0x0f) << 3;`.
The C subtraction happens on the 8-bit value promoted to int, so for
`num_channels = 0` it yields `-1 & 7 = 7`; `(n + 255) &&& 7` agrees with
that for every 8-bit value of `num_channels`. -/
def sad_b1 (sad : short_audio_desc) : Nat :=
  ((sad.num_channels + 255) &&& 0x07) ||| ((sad.format_code &&& 0x0f) <<< 3)

/-- Byte 2 computed by `sad_encode` (cec-follower.cpp:107):
`b2 = sad->sample_freq_mask;` — the whole 8-bit mask, for every format code. -/
def sad_b2 (sad : short_audio_desc) : Nat :=
  sad.sample_freq_mask % 256

/-- Byte 3 for `format_code = 15`: the nested switch on the extension type
code (cec-follower.cpp:133-153). The `fallthrough` from the MPEG-H 3D
Audio / AC-4 cases into the L-PCM 3D Audio case makes the first pair OR in
both `format_dependent & 0x07` and `bit_depth_mask & 0x07`. -/
def sad_b3_ext (sad : short_audio_desc) : Nat :=
  let b3 := (sad.extension_type_code &&& 0x1f) <<< 3
  if sad.extension_type_code = 4 ∨ sad.extension_type_code = 5 ∨
      sad.extension_type_code = 6 then
    b3 ||| ((sad.frame_length_mask &&& 0x03) <<< 1)
  else if sad.extension_type_code = 8 ∨ sad.extension_type_code = 10 then
    (b3 ||| ((sad.frame_length_mask &&& 0x03) <<< 1)) ||| (sad.mps &&& 1)
  else if sad.extension_type_code = SAD_EXT_TYPE_MPEG_H_3D_AUDIO ∨
      sad.extension_type_code = SAD_EXT_TYPE_AC_4 then
    (b3 ||| (sad.format_dependent &&& 0x07)) ||| (sad.bit_depth_mask &&& 0x07)
  else if sad.extension_type_code = SAD_EXT_TYPE_LPCM_3D_AUDIO then
    b3 ||| (sad.bit_depth_mask &&& 0x07)
  else
    b3

/-- Byte 3 computed by `sad_encode`: the switch on `format_code`
(cec-follower.cpp:109-155). Case labels 2-8 and 9-13 are the source's
grouped cases; a format code outside the listed cases leaves `b3 = 0`. -/
def sad_b3 (sad : short_audio_desc) : Nat :=
  if sad.format_code = SAD_FMT_CODE_LPCM then
    sad.bit_depth_mask &&& 0x07
  else if sad.format_code = 2 ∨ sad.format_code = 3 ∨ sad.format_code = 4 ∨
      sad.format_code = 5 ∨ sad.format_code = 6 ∨ sad.format_code = 7 ∨
      sad.format_code = 8 then
    sad.max_bitrate % 256
  else if sad.format_code = 9 ∨ sad.format_code = 10 ∨ sad.format_code = 11 ∨
      sad.format_code = 12 ∨ sad.format_code = 13 then
    sad.format_dependent % 256
  else if sad.format_code = SAD_FMT_CODE_WMA_PRO then
    sad.wma_profile &&& 0x03
  else if sad.format_code = SAD_FMT_CODE_EXTENDED then
    sad_b3_ext sad
  else
    0

/-- `sad_encode` (cec-follower.cpp:100-158): the packed 24-bit descriptor
`(b1 << 16) | (b2 << 8) | b3` written through the out-parameter. -/
def sad_encode (sad : short_audio_desc) : Nat :=
  (sad_b1 sad <<< 16) ||| (sad_b2 sad <<< 8) ||| sad_b3 sad

/-! ### Byte bounds and byte extraction -/

theorem and7_eq_mod (x : Nat) : x &&& 7 = x % 8 := by
  have h := Nat.and_pow_two_sub_one_eq_mod x 3
  norm_num at h
  exact h

theorem and3_eq_mod (x : Nat) : x &&& 3 = x % 4 := by
  have h := Nat.and_pow_two_sub_one_eq_mod x 2
  norm_num at h
  exact h

theorem and1_eq_mod (x : Nat) : x &&& 1 = x % 2 :=
  Nat.and_one_is_mod x

theorem and15_eq_mod (x : Nat) : x &&& 15 = x % 16 := by
  have h := Nat.and_pow_two_sub_one_eq_mod x 4
  norm_num at h
  exact h

theorem and31_eq_mod (x : Nat) : x &&& 31 = x % 32 := by
  have h := Nat.and_pow_two_sub_one_eq_mod x 5
  norm_num at h
  exact h

theorem sad_b1_lt (sad : short_audio_desc) : sad_b1 sad < 128 := by
  have h1 : (sad.num_channels + 255) &&& 0x07 < 128 := by
    rw [and7_eq_mod]; omega
  have h2 : (sad.format_code &&& 0x0f) <<< 3 < 128 := by
    rw [and15_eq_mod, Nat.shiftLeft_eq]
    have := Nat.mod_lt (sad.format_code) (show 0 < 16 by norm_num)
    omega
  have := Nat.or_lt_two_pow (n := 7) h1 h2
  simpa using this

theorem sad_b2_lt (sad : short_audio_desc) : sad_b2 sad < 256 := by
  have := Nat.mod_lt sad.sample_freq_mask (show 0 < 256 by norm_num)
  simpa [sad_b2] using this

theorem sad_b3_ext_lt (sad : short_audio_desc) : sad_b3_ext sad < 256 := by
  have hb : (sad.extension_type_code &&& 0x1f) <<< 3 < 256 := by
    rw [and31_eq_mod, Nat.shiftLeft_eq]
    have := Nat.mod_lt (sad.extension_type_code) (show 0 < 32 by norm_num)
    omega
  have hfl : (sad.frame_length_mask &&& 0x03) <<< 1 < 256 := by
    rw [and3_eq_mod, Nat.shiftLeft_eq]; omega
  have hmps : sad.mps &&& 1 < 256 := by rw [and1_eq_mod]; omega
  have hfd : sad.format_dependent &&& 0x07 < 256 := by rw [and7_eq_mod]; omega
  have hbd : sad.bit_depth_mask &&& 0x07 < 256 := by rw [and7_eq_mod]; omega
  unfold sad_b3_ext
  split
  · exact Nat.or_lt_two_pow (n := 8) hb hfl
  · split
    · exact Nat.or_lt_two_pow (n := 8) (Nat.or_lt_two_pow (n := 8) hb hfl) hmps
    · split
      · exact Nat.or_lt_two_pow (n := 8) (Nat.or_lt_two_pow (n := 8) hb hfd) hbd
      · split
        · exact Nat.or_lt_two_pow (n := 8) hb hbd
        · exact hb

theorem sad_b3_lt (sad : short_audio_desc) : sad_b3 sad < 256 := by
  unfold sad_b3
  split
  · rw [and7_eq_mod]; omega
  · split
    · exact Nat.mod_lt _ (by norm_num)
    · split
      · exact Nat.mod_lt _ (by norm_num)
      · split
        · rw [and3_eq_mod]; omega
        · split
          · exact sad_b3_ext_lt sad
          · norm_num

/-- The packed value decomposes into its three byte fields. -/
theorem sad_encode_eq_bytes (sad : short_audio_desc) :
    sad_encode sad = sad_b1 sad * 65536 + sad_b2 sad * 256 + sad_b3 sad := by
  have h2 : sad_b2 sad < 256 := sad_b2_lt sad
  have h3 : sad_b3 sad < 256 := sad_b3_lt sad
  have hlow : 2 ^ 8 * sad_b2 sad + sad_b3 sad < 2 ^ 16 := by
    have : sad_b2 sad ≤ 255 := by omega
    norm_num
    omega
  have e1 : sad_b2 sad <<< 8 ||| sad_b3 sad = 2 ^ 8 * sad_b2 sad + sad_b3 sad := by
    rw [Nat.shiftLeft_eq, Nat.mul_comm]
    exact (Nat.mul_add_lt_is_or (by norm_num [h3]) _).symm
  have e2 : sad_b1 sad <<< 16 ||| (2 ^ 8 * sad_b2 sad + sad_b3 sad) =
      2 ^ 16 * sad_b1 sad + (2 ^ 8 * sad_b2 sad + sad_b3 sad) := by
    rw [Nat.shiftLeft_eq, Nat.mul_comm]
    exact (Nat.mul_add_lt_is_or hlow _).symm
  rw [sad_encode, Nat.or_assoc, e1, e2]
  ring

theorem sad_encode_byte3 (sad : short_audio_desc) :
    sad_encode sad % 256 = sad_b3 sad := by
  have h3 := sad_b3_lt sad
  rw [sad_encode_eq_bytes]
  omega

theorem sad_encode_byte2 (sad : short_audio_desc) :
    sad_encode sad / 256 % 256 = sad_b2 sad := by
  have h2 := sad_b2_lt sad
  have h3 := sad_b3_lt sad
  rw [sad_encode_eq_bytes]
  omega

theorem sad_encode_byte1 (sad : short_audio_desc) :
    sad_encode sad / 65536 = sad_b1 sad := by
  have h2 := sad_b2_lt sad
  have h3 := sad_b3_lt sad
  rw [sad_encode_eq_bytes]
  omega

/-! ### Disjoint-or decompositions for the low byte-3 bits -/

theorem or_mul8_add (a b : Nat) (hb : b < 8) : 8 * a ||| b = 8 * a + b := by
  have h := Nat.mul_add_lt_is_or (show b < 2 ^ 3 by omega) a
  norm_num at h
  omega

theorem or_mul2_add (a b : Nat) (hb : b < 2) : 2 * a ||| b = 2 * a + b := by
  have h := Nat.mul_add_lt_is_or (show b < 2 ^ 1 by omega) a
  norm_num at h
  omega

/-- With `format_code = 15` the byte-3 switch selects the extended branch. -/
theorem sad_b3_extended (sad : short_audio_desc) (hfc : sad.format_code = 15) :
    sad_b3 sad = sad_b3_ext sad := by
  rw [sad_b3]
  rw [if_neg (by rw [hfc]; decide)]
  rw [if_neg (by rw [hfc]; decide)]
  rw [if_neg (by rw [hfc]; decide)]
  rw [if_neg (by rw [hfc]; decide)]
  rw [if_pos (by rw [hfc]; decide)]

/-- Concrete descriptor with the reserved format code 0 and a non-zero
sample-frequency mask, used to settle C5. -/
def sad_fc0 : short_audio_desc :=
  ⟨1, 0, 7, 0, 0, 0, 0, 0, 0, 0⟩

/-- C5 counterexample: for `format_code = 0` the claim says byte 2 of the
encoding is 0, but `sad_encode` copies `sample_freq_mask` into byte 2
unconditionally (cec-follower.cpp:107): at `sample_freq_mask = 7` byte 2 of
the packed descriptor is 7, not 0. -/
theorem C5_byte2_not_zero :
    sad_fc0.format_code = 0 ∧
    sad_encode sad_fc0 / 256 % 256 = 7 ∧
    ¬ sad_encode sad_fc0 / 256 % 256 = 0 := by
  decide

/-- C5 (amended): for every descriptor with `format_code = 0` (and the
spec's guaranteed channel count of at least 1), byte 1 of the encoding is
`(num_channels - 1) & 0x07` (channel count only), byte 2 is the low 8 bits
of `sample_freq_mask`, and byte 3 is 0. -/
theorem C5_format_code_zero (sad : short_audio_desc)
    (hfc : sad.format_code = 0) (hnc : 1 ≤ sad.num_channels) :
    sad_encode sad / 65536 = (sad.num_channels - 1) &&& 0x07 ∧
    sad_encode sad / 256 % 256 = sad.sample_freq_mask % 256 ∧
    sad_encode sad % 256 = 0 := by
  rw [sad_encode_byte1, sad_encode_byte2, sad_encode_byte3]
  refine ⟨?_, rfl, ?_⟩
  · rw [sad_b1, hfc]
    norm_num
    rw [and7_eq_mod, and7_eq_mod]
    omega
  · rw [sad_b3]
    rw [if_neg (by rw [hfc]; decide)]
    rw [if_neg (by rw [hfc]; decide)]
    rw [if_neg (by rw [hfc]; decide)]
    rw [if_neg (by rw [hfc]; decide)]
    rw [if_neg (by rw [hfc]; decide)]

theorem C5_witness :
    sad_fc0.format_code = 0 ∧ 1 ≤ sad_fc0.num_channels ∧
    (sad_encode sad_fc0 / 65536 = (sad_fc0.num_channels - 1) &&& 0x07 ∧
     sad_encode sad_fc0 / 256 % 256 = sad_fc0.sample_freq_mask % 256 ∧
     sad_encode sad_fc0 % 256 = 0) :=
  ⟨by decide, by decide, C5_format_code_zero sad_fc0 (by decide) (by decide)⟩

/-- C6: for `format_code` in {2,...,8}, byte 3 of the encoding is exactly
`max_bitrate` (all 8 bits), and it does not depend on `format_dependent`,
`wma_profile`, `bit_depth_mask`, `frame_length_mask`, `extension_type_code`
or `mps`: a second descriptor agreeing on the remaining fields encodes to
the same byte 3. -/
theorem C6_byte3_is_max_bitrate (sad sad2 : short_audio_desc)
    (h2 : 2 ≤ sad.format_code) (h8 : sad.format_code ≤ 8)
    (hmb : sad.max_bitrate < 256)
    (e1 : sad2.num_channels = sad.num_channels)
    (e2 : sad2.format_code = sad.format_code)
    (e3 : sad2.sample_freq_mask = sad.sample_freq_mask)
    (e4 : sad2.max_bitrate = sad.max_bitrate) :
    sad_encode sad % 256 = sad.max_bitrate ∧
    sad_encode sad2 % 256 = sad_encode sad % 256 := by
  have hb3 : ∀ s : short_audio_desc, s.format_code = sad.format_code →
      sad_b3 s = s.max_bitrate % 256 := by
    intro s hf
    have hne1 : ¬ s.format_code = SAD_FMT_CODE_LPCM := by
      rw [hf, SAD_FMT_CODE_LPCM]; omega
    have hin : s.format_code = 2 ∨ s.format_code = 3 ∨ s.format_code = 4 ∨
        s.format_code = 5 ∨ s.format_code = 6 ∨ s.format_code = 7 ∨
        s.format_code = 8 := by
      rw [hf]; omega
    rw [sad_b3, if_neg hne1, if_pos hin]
  constructor
  · rw [sad_encode_byte3, hb3 sad rfl, Nat.mod_eq_of_lt hmb]
  · rw [sad_encode_byte3, sad_encode_byte3, hb3 sad rfl, hb3 sad2 e2, e4]

/-- Concrete AC-3 style descriptor (format code 2) for the C6 witness. -/
def sad_ac3 : short_audio_desc :=
  ⟨2, 2, 5, 1, 100, 9, 3, 7, 2, 1⟩

/-- The same descriptor with every field outside {num_channels, format_code,
sample_freq_mask, max_bitrate} changed. -/
def sad_ac3_alt : short_audio_desc :=
  ⟨2, 2, 5, 6, 100, 2, 1, 13, 1, 0⟩

theorem C6_witness :
    sad_encode sad_ac3 % 256 = sad_ac3.max_bitrate ∧
    sad_encode sad_ac3_alt % 256 = sad_encode sad_ac3 % 256 :=
  C6_byte3_is_max_bitrate sad_ac3 sad_ac3_alt (by decide) (by decide)
    (by decide) (by decide) (by decide) (by decide) (by decide)

/-- Low bits of the extended byte 3 when only the frame-length bits are
OR-ed in: bit 0 stays 0, bits 1-2 carry `flm & 0x03`. -/
theorem ext_fl_bits (c flm : Nat) :
    (((c &&& 0x1f) <<< 3) ||| ((flm &&& 0x03) <<< 1)) % 2 = 0 ∧
    (((c &&& 0x1f) <<< 3) ||| ((flm &&& 0x03) <<< 1)) / 2 % 4 = flm % 4 := by
  rw [and31_eq_mod, and3_eq_mod, Nat.shiftLeft_eq, Nat.shiftLeft_eq]
  have h1 : c % 32 * 2 ^ 3 = 8 * (c % 32) := by ring
  have h2 : flm % 4 * 2 ^ 1 = flm % 4 * 2 := by ring
  rw [h1, h2, or_mul8_add (c % 32) (flm % 4 * 2) (by omega)]
  omega

/-- Low bits of the extended byte 3 when frame-length and mps are both
OR-ed in: bits 1-2 carry `flm & 0x03`, bit 0 carries `mps & 1`. -/
theorem ext_fl_mps_bits (c flm m : Nat) :
    (((((c &&& 0x1f) <<< 3) ||| ((flm &&& 0x03) <<< 1)) ||| (m &&& 1)) / 2 % 4 =
      flm % 4) ∧
    ((((c &&& 0x1f) <<< 3) ||| ((flm &&& 0x03) <<< 1)) ||| (m &&& 1)) % 2 =
      m % 2 := by
  rw [and31_eq_mod, and3_eq_mod, and1_eq_mod, Nat.shiftLeft_eq, Nat.shiftLeft_eq]
  have h1 : c % 32 * 2 ^ 3 = 8 * (c % 32) := by ring
  have h2 : flm % 4 * 2 ^ 1 = flm % 4 * 2 := by ring
  rw [h1, h2, or_mul8_add (c % 32) (flm % 4 * 2) (by omega)]
  have h3 : 8 * (c % 32) + flm % 4 * 2 = 2 * (4 * (c % 32) + flm % 4) := by ring
  rw [h3, or_mul2_add (4 * (c % 32) + flm % 4) (m % 2) (by omega)]
  omega

/-- Low 3 bits of the extended byte 3 in the shared MPEG-H 3D Audio / AC-4 /
fallthrough branch: the OR of the two 3-bit masks. -/
theorem ext_fd_bd_bits (c fd bd : Nat) :
    ((((c &&& 0x1f) <<< 3) ||| (fd &&& 0x07)) ||| (bd &&& 0x07)) % 8 =
      (fd % 8) ||| (bd % 8) := by
  rw [and31_eq_mod, and7_eq_mod, and7_eq_mod, Nat.shiftLeft_eq]
  have h1 : c % 32 * 2 ^ 3 = 8 * (c % 32) := by ring
  rw [h1, Nat.or_assoc]
  have hor : fd % 8 ||| bd % 8 < 8 := by
    have h := Nat.or_lt_two_pow (show fd % 8 < 2 ^ 3 by omega)
      (show bd % 8 < 2 ^ 3 by omega)
    norm_num at h
    exact h
  rw [or_mul8_add (c % 32) (fd % 8 ||| bd % 8) hor]
  omega

/-- Low 3 bits of the extended byte 3 in the L-PCM 3D Audio branch. -/
theorem ext_bd_bits (c bd : Nat) :
    (((c &&& 0x1f) <<< 3) ||| (bd &&& 0x07)) % 8 = bd % 8 := by
  rw [and31_eq_mod, and7_eq_mod, Nat.shiftLeft_eq]
  have h1 : c % 32 * 2 ^ 3 = 8 * (c % 32) := by ring
  rw [h1, or_mul8_add (c % 32) (bd % 8) (by omega)]
  omega

/-- C7: for `format_code = 15`, extension types 4, 5, 6 set bit 0 of byte 3
to 0 and bits 1-2 to `frame_length_mask` masked to 2 bits; extension types
8 and 10 set bits 1-2 the same way and bit 0 to `mps` masked to 1 bit. -/
theorem C7_ext_frame_length_bits (sad : short_audio_desc)
    (hfc : sad.format_code = 15) :
    ((sad.extension_type_code = 4 ∨ sad.extension_type_code = 5 ∨
        sad.extension_type_code = 6) →
      sad_encode sad % 256 % 2 = 0 ∧
      sad_encode sad % 256 / 2 % 4 = sad.frame_length_mask % 4) ∧
    ((sad.extension_type_code = 8 ∨ sad.extension_type_code = 10) →
      sad_encode sad % 256 / 2 % 4 = sad.frame_length_mask % 4 ∧
      sad_encode sad % 256 % 2 = sad.mps % 2) := by
  rw [sad_encode_byte3, sad_b3_extended sad hfc]
  constructor
  · intro hext
    have hb : sad_b3_ext sad =
        ((sad.extension_type_code &&& 0x1f) <<< 3) |||
          ((sad.frame_length_mask &&& 0x03) <<< 1) := by
      simp only [sad_b3_ext]
      rw [if_pos hext]
    rw [hb]
    exact ext_fl_bits sad.extension_type_code sad.frame_length_mask
  · intro hext
    have hne1 : ¬ (sad.extension_type_code = 4 ∨ sad.extension_type_code = 5 ∨
        sad.extension_type_code = 6) := by
      rcases hext with h | h <;> rw [h] <;> decide
    have hb : sad_b3_ext sad =
        (((sad.extension_type_code &&& 0x1f) <<< 3) |||
          ((sad.frame_length_mask &&& 0x03) <<< 1)) ||| (sad.mps &&& 1) := by
      simp only [sad_b3_ext]
      rw [if_neg hne1, if_pos hext]
    rw [hb]
    exact ext_fl_mps_bits sad.extension_type_code sad.frame_length_mask sad.mps

/-- Concrete extended descriptor (extension type 8) for the C7 witness. -/
def sad_ext8 : short_audio_desc :=
  ⟨2, 15, 3, 5, 0, 6, 0, 8, 2, 1⟩

theorem C7_witness :
    ((sad_ext8.extension_type_code = 4 ∨ sad_ext8.extension_type_code = 5 ∨
        sad_ext8.extension_type_code = 6) →
      sad_encode sad_ext8 % 256 % 2 = 0 ∧
      sad_encode sad_ext8 % 256 / 2 % 4 = sad_ext8.frame_length_mask % 4) ∧
    ((sad_ext8.extension_type_code = 8 ∨ sad_ext8.extension_type_code = 10) →
      sad_encode sad_ext8 % 256 / 2 % 4 = sad_ext8.frame_length_mask % 4 ∧
      sad_encode sad_ext8 % 256 % 2 = sad_ext8.mps % 2) :=
  C7_ext_frame_length_bits sad_ext8 (by decide)

/-- C8: for `format_code = 15`, the MPEG-H 3D Audio and AC-4 extension types
put `(format_dependent & 0x07) | (bit_depth_mask & 0x07)` in bits 0-2 of
byte 3 (the deliberate fallthrough), while the L-PCM 3D Audio type puts only
`bit_depth_mask & 0x07` there. -/
theorem C8_ext_3d_audio_bits (sad : short_audio_desc)
    (hfc : sad.format_code = 15) :
    ((sad.extension_type_code = SAD_EXT_TYPE_MPEG_H_3D_AUDIO ∨
        sad.extension_type_code = SAD_EXT_TYPE_AC_4) →
      sad_encode sad % 256 % 8 =
        (sad.format_dependent % 8) ||| (sad.bit_depth_mask % 8)) ∧
    (sad.extension_type_code = SAD_EXT_TYPE_LPCM_3D_AUDIO →
      sad_encode sad % 256 % 8 = sad.bit_depth_mask % 8) := by
  rw [sad_encode_byte3, sad_b3_extended sad hfc]
  constructor
  · intro hext
    have hne1 : ¬ (sad.extension_type_code = 4 ∨ sad.extension_type_code = 5 ∨
        sad.extension_type_code = 6) := by
      rcases hext with h | h <;> rw [h] <;> decide
    have hne2 : ¬ (sad.extension_type_code = 8 ∨
        sad.extension_type_code = 10) := by
      rcases hext with h | h <;> rw [h] <;> decide
    have hb : sad_b3_ext sad =
        (((sad.extension_type_code &&& 0x1f) <<< 3) |||
          (sad.format_dependent &&& 0x07)) ||| (sad.bit_depth_mask &&& 0x07) := by
      simp only [sad_b3_ext]
      rw [if_neg hne1, if_neg hne2, if_pos hext]
    rw [hb]
    exact ext_fd_bd_bits sad.extension_type_code sad.format_dependent
      sad.bit_depth_mask
  · intro hext
    have hne1 : ¬ (sad.extension_type_code = 4 ∨ sad.extension_type_code = 5 ∨
        sad.extension_type_code = 6) := by
      rw [hext]; decide
    have hne2 : ¬ (sad.extension_type_code = 8 ∨
        sad.extension_type_code = 10) := by
      rw [hext]; decide
    have hne3 : ¬ (sad.extension_type_code = SAD_EXT_TYPE_MPEG_H_3D_AUDIO ∨
        sad.extension_type_code = SAD_EXT_TYPE_AC_4) := by
      rw [hext]; decide
    have hb : sad_b3_ext sad =
        ((sad.extension_type_code &&& 0x1f) <<< 3) |||
          (sad.bit_depth_mask &&& 0x07) := by
      simp only [sad_b3_ext]
      rw [if_neg hne1, if_neg hne2, if_neg hne3, if_pos hext]
    rw [hb]
    exact ext_bd_bits sad.extension_type_code sad.bit_depth_mask

/-- Concrete extended descriptor (extension type 11, MPEG-H 3D Audio) for
the C8 witness. -/
def sad_ext11 : short_audio_desc :=
  ⟨2, 15, 3, 5, 0, 6, 0, 11, 2, 1⟩

theorem C8_witness :
    ((sad_ext11.extension_type_code = SAD_EXT_TYPE_MPEG_H_3D_AUDIO ∨
        sad_ext11.extension_type_code = SAD_EXT_TYPE_AC_4) →
      sad_encode sad_ext11 % 256 % 8 =
        (sad_ext11.format_dependent % 8) ||| (sad_ext11.bit_depth_mask % 8)) ∧
    (sad_ext11.extension_type_code = SAD_EXT_TYPE_LPCM_3D_AUDIO →
      sad_encode sad_ext11 % 256 % 8 = sad_ext11.bit_depth_mask % 8) :=
  C8_ext_3d_audio_bits sad_ext11 (by decide)

/-- C10: whatever the field values, the packed descriptor is below `2^24`
(its top 8 bits are zero) and bit 7 of byte 1 is zero (byte 1 is below 128;
equivalently bit 23 of the packed value is clear). -/
theorem C10_packed_fits_24_bits (sad : short_audio_desc) :
    sad_encode sad < 2 ^ 24 ∧ (sad_encode sad).testBit 23 = false ∧
    sad_b1 sad < 128 := by
  have h1 := sad_b1_lt sad
  have h2 := sad_b2_lt sad
  have h3 := sad_b3_lt sad
  have henc : sad_encode sad < 2 ^ 23 := by
    rw [sad_encode_eq_bytes]
    norm_num
    omega
  exact ⟨lt_trans henc (by norm_num), Nat.testBit_lt_two_pow henc, h1⟩

/-! ## Adapter gateway: `cec_named_ioctl` and the last-activity tracker -/

/-- Bit set in `tx_status` when a transmit succeeded (linux/cec.h). -/
def CEC_TX_STATUS_OK : Nat := 0x01

/-- Bit set in `rx_status` for a clean receive (linux/cec.h). -/
def CEC_RX_STATUS_OK : Nat := 0x01

/-- Bit set in `rx_status` when the reply was a feature abort (linux/cec.h). -/
def CEC_RX_STATUS_FEATURE_ABORT : Nat := 0x04

/-- The unregistered / broadcast logical address sentinel (linux/cec.h). -/
def CEC_LOG_ADDR_UNREGISTERED : Nat := 15

/-- Modelled from the spec: `struct cec_msg` and its accessors live in
linux/cec.h, outside the staged sources. Per the spec (§6), the message
record carries initiator and destination logical addresses (4-bit values
packed in the first message byte), transmit and receive status bits, a
response-wait timeout and transmit/receive timestamps. -/
structure cec_msg where
  initiator : Nat
  destination : Nat
  timeout : Nat
  tx_status : Nat
  rx_status : Nat
  tx_ts : Nat
  rx_ts : Nat
deriving DecidableEq

/-- `cec_msg_initiator`: the high nibble of the first message byte, hence
always in 0..15. -/
def cec_msg_initiator (msg : cec_msg) : Nat := msg.initiator % 16

/-- `cec_msg_destination`: the low nibble of the first message byte, hence
always in 0..15. -/
def cec_msg_destination (msg : cec_msg) : Nat := msg.destination % 16

/-- `cec_msg_is_broadcast`: the destination nibble is 0xf. -/
def cec_msg_is_broadcast (msg : cec_msg) : Bool :=
  cec_msg_destination msg = 15

/-- The two ioctl request codes `cec_named_ioctl` inspects; every other
request value leaves the tracker alone and is modelled by `other`. -/
inductive cec_request where
  | CEC_TRANSMIT
  | CEC_RECEIVE
  | other
deriving DecidableEq

/-- `cec_named_ioctl` (cec-follower.cpp:264-297), modelled on its observable
state: given the underlying ioctl's return value and `errno`, the request,
the message it carried and the current `la_info` timestamp array (logical
address → `.ts`), it returns the function's return value and the updated
timestamp array. On `retval == 0` the tracker is updated per the
transmit/receive rules; the function returns `errno` when the ioctl
returned -1, `-1` for any other non-zero return, and 0 on success. -/
def cec_named_ioctl (retval errno : Int) (request : cec_request)
    (msg : cec_msg) (la_info : Nat → Nat) : Int × (Nat → Nat) :=
  let e : Int := if retval = 0 then 0 else errno
  let la_upd :=
    if retval = 0 then
      let la_tx :=
        if request = cec_request.CEC_TRANSMIT ∧
            msg.tx_status &&& CEC_TX_STATUS_OK ≠ 0 ∧
            cec_msg_is_broadcast msg = false then
          if msg.timeout ≠ 0 then
            if msg.rx_status &&& (CEC_RX_STATUS_OK ||| CEC_RX_STATUS_FEATURE_ABORT) ≠ 0 then
              Function.update la_info (cec_msg_initiator msg) msg.rx_ts
            else
              la_info
          else
            Function.update la_info (cec_msg_destination msg) msg.tx_ts
        else
          la_info
      if request = cec_request.CEC_RECEIVE ∧
          cec_msg_initiator msg ≠ CEC_LOG_ADDR_UNREGISTERED ∧
          msg.rx_status &&& CEC_RX_STATUS_OK ≠ 0 then
        Function.update la_tx (cec_msg_initiator msg) msg.rx_ts
      else
        la_tx
    else
      la_info
  (if retval = -1 then e else if retval ≠ 0 then -1 else 0, la_upd)

/-- C1: a successful CEC_TRANSMIT (zero ioctl return) whose transmit status
has the OK bit, whose destination is not broadcast and whose timeout is
zero sets the tracker entry of the destination address to the transmit
timestamp and leaves every other address unchanged. -/
theorem C1_transmit_updates_destination (errno : Int) (msg : cec_msg)
    (la : Nat → Nat)
    (hok : msg.tx_status &&& CEC_TX_STATUS_OK ≠ 0)
    (hbc : cec_msg_is_broadcast msg = false)
    (hto : msg.timeout = 0) :
    (cec_named_ioctl 0 errno cec_request.CEC_TRANSMIT msg la).2
        (cec_msg_destination msg) = msg.tx_ts ∧
    ∀ a, a ≠ cec_msg_destination msg →
      (cec_named_ioctl 0 errno cec_request.CEC_TRANSMIT msg la).2 a = la a := by
  have hres : (cec_named_ioctl 0 errno cec_request.CEC_TRANSMIT msg la).2 =
      Function.update la (cec_msg_destination msg) msg.tx_ts := by
    simp [cec_named_ioctl, hok, hbc, hto]
  rw [hres]
  exact ⟨Function.update_same _ _ _, fun a ha => Function.update_noteq ha _ _⟩

/-- Concrete message for the C1 witness: unicast to address 3, transmit OK,
no timeout, transmit timestamp 42. -/
def msg_tx3 : cec_msg :=
  ⟨1, 3, 0, 1, 0, 42, 0⟩

theorem C1_witness :
    (cec_named_ioctl 0 0 cec_request.CEC_TRANSMIT msg_tx3 (fun _ => 0)).2
        (cec_msg_destination msg_tx3) = msg_tx3.tx_ts ∧
    ∀ a, a ≠ cec_msg_destination msg_tx3 →
      (cec_named_ioctl 0 0 cec_request.CEC_TRANSMIT msg_tx3 (fun _ => 0)).2 a =
        (fun _ => 0 : Nat → Nat) a :=
  C1_transmit_updates_destination 0 msg_tx3 (fun _ => 0) (by decide) (by decide)
    (by decide)

/-- C2: a successful CEC_RECEIVE sets the tracker entry of the initiator to
the receive timestamp when the initiator is not the unregistered sentinel
and the receive status has the OK bit; if the initiator is 15 or the OK bit
is clear, no tracker entry changes. -/
theorem C2_receive_updates_initiator (errno : Int) (msg : cec_msg)
    (la : Nat → Nat) :
    ((cec_msg_initiator msg ≠ CEC_LOG_ADDR_UNREGISTERED ∧
        msg.rx_status &&& CEC_RX_STATUS_OK ≠ 0) →
      (cec_named_ioctl 0 errno cec_request.CEC_RECEIVE msg la).2
          (cec_msg_initiator msg) = msg.rx_ts ∧
      ∀ a, a ≠ cec_msg_initiator msg →
        (cec_named_ioctl 0 errno cec_request.CEC_RECEIVE msg la).2 a = la a) ∧
    ((cec_msg_initiator msg = CEC_LOG_ADDR_UNREGISTERED ∨
        msg.rx_status &&& CEC_RX_STATUS_OK = 0) →
      (cec_named_ioctl 0 errno cec_request.CEC_RECEIVE msg la).2 = la) := by
  constructor
  · intro h
    have hres : (cec_named_ioctl 0 errno cec_request.CEC_RECEIVE msg la).2 =
        Function.update la (cec_msg_initiator msg) msg.rx_ts := by
      simp [cec_named_ioctl, h.1, h.2]
    rw [hres]
    exact ⟨Function.update_same _ _ _, fun a ha => Function.update_noteq ha _ _⟩
  · intro h
    rcases h with h | h
    · simp [cec_named_ioctl, h]
    · simp [cec_named_ioctl, h]

/-- C3: a successful CEC_TRANSMIT with transmit OK, non-broadcast
destination and non-zero timeout updates nothing when the receive status
has neither the OK bit nor the feature-abort bit, and otherwise sets the
initiator's tracker entry to the receive timestamp. -/
theorem C3_transmit_with_timeout (errno : Int) (msg : cec_msg)
    (la : Nat → Nat)
    (hok : msg.tx_status &&& CEC_TX_STATUS_OK ≠ 0)
    (hbc : cec_msg_is_broadcast msg = false)
    (hto : msg.timeout ≠ 0) :
    (msg.rx_status &&& (CEC_RX_STATUS_OK ||| CEC_RX_STATUS_FEATURE_ABORT) = 0 →
      (cec_named_ioctl 0 errno cec_request.CEC_TRANSMIT msg la).2 = la) ∧
    (msg.rx_status &&& (CEC_RX_STATUS_OK ||| CEC_RX_STATUS_FEATURE_ABORT) ≠ 0 →
      (cec_named_ioctl 0 errno cec_request.CEC_TRANSMIT msg la).2
          (cec_msg_initiator msg) = msg.rx_ts) := by
  constructor
  · intro hrx
    simp [cec_named_ioctl, hok, hbc, hto, hrx]
  · intro hrx
    have hres : (cec_named_ioctl 0 errno cec_request.CEC_TRANSMIT msg la).2 =
        Function.update la (cec_msg_initiator msg) msg.rx_ts := by
      simp [cec_named_ioctl, hok, hbc, hto, hrx]
    rw [hres]
    exact Function.update_same _ _ _

/-- Concrete message for the C3 witness: unicast to address 3, transmit OK,
timeout 1000, receive status neither OK nor feature abort. -/
def msg_tx3_timeout : cec_msg :=
  ⟨1, 3, 1000, 1, 2, 42, 77⟩

theorem C3_witness :
    (msg_tx3_timeout.rx_status &&&
        (CEC_RX_STATUS_OK ||| CEC_RX_STATUS_FEATURE_ABORT) = 0 →
      (cec_named_ioctl 0 0 cec_request.CEC_TRANSMIT msg_tx3_timeout
          (fun _ => 0)).2 = (fun _ => 0 : Nat → Nat)) ∧
    (msg_tx3_timeout.rx_status &&&
        (CEC_RX_STATUS_OK ||| CEC_RX_STATUS_FEATURE_ABORT) ≠ 0 →
      (cec_named_ioctl 0 0 cec_request.CEC_TRANSMIT msg_tx3_timeout
          (fun _ => 0)).2 (cec_msg_initiator msg_tx3_timeout) =
        msg_tx3_timeout.rx_ts) :=
  C3_transmit_with_timeout 0 msg_tx3_timeout (fun _ => 0) (by decide) (by decide)
    (by decide)

/-- C4: when the underlying ioctl returns non-zero, no tracker entry is
mutated and the returned failure code is non-zero: `errno` when the ioctl
returned -1 (POSIX guarantees a non-zero `errno` there), `-1` otherwise. -/
theorem C4_failure_leaves_tracker (retval errno : Int) (request : cec_request)
    (msg : cec_msg) (la : Nat → Nat)
    (hfail : retval ≠ 0) (herrno : retval = -1 → errno ≠ 0) :
    (cec_named_ioctl retval errno request msg la).2 = la ∧
    (cec_named_ioctl retval errno request msg la).1 =
      (if retval = -1 then errno else -1) ∧
    (cec_named_ioctl retval errno request msg la).1 ≠ 0 := by
  refine ⟨by simp [cec_named_ioctl, hfail], ?_, ?_⟩
  · by_cases h1 : retval = -1
    · simp [cec_named_ioctl, h1]
    · simp [cec_named_ioctl, hfail, h1]
  · by_cases h1 : retval = -1
    · simpa [cec_named_ioctl, h1, hfail] using herrno h1
    · simp [cec_named_ioctl, hfail, h1]

theorem C4_witness :
    (cec_named_ioctl (-1) 5 cec_request.other msg_tx3 (fun _ => 0)).2 =
      (fun _ => 0 : Nat → Nat) ∧
    (cec_named_ioctl (-1) 5 cec_request.other msg_tx3 (fun _ => 0)).1 =
      (if (-1 : Int) = -1 then 5 else -1) ∧
    (cec_named_ioctl (-1) 5 cec_request.other msg_tx3 (fun _ => 0)).1 ≠ 0 :=
  C4_failure_leaves_tracker (-1) 5 cec_request.other msg_tx3 (fun _ => 0)
    (by decide) (fun _ => by decide)

/-! ## The --ignore option processing in main -/

/-- `ULONG_MAX` of the 64-bit `unsigned long` that C `strtoul` returns. -/
def ULONG_MAX : Nat := 2 ^ 64 - 1

/-- C `isspace` in the default locale (space and the 0x09-0x0d controls). -/
def c_isspace (c : Char) : Bool :=
  if c.toNat = 32 ∨ (9 ≤ c.toNat ∧ c.toNat ≤ 13) then true else false

/-- The value of `c` as a digit of `base`, if it is one (0-9, a-z, A-Z). -/
def digitVal? (base : Nat) (c : Char) : Option Nat :=
  let n := c.toNat
  let v : Option Nat :=
    if 48 ≤ n ∧ n ≤ 57 then some (n - 48)
    else if 97 ≤ n ∧ n ≤ 122 then some (n - 97 + 10)
    else if 65 ≤ n ∧ n ≤ 90 then some (n - 65 + 10)
    else none
  match v with
  | some d => if d < base then some d else none
  | none => none

/-- Digit-accumulation loop of `strtoul`, saturating at `ULONG_MAX`. -/
def strtoul_digits (base : Nat) : List Char → Nat → Nat
  | [], acc => acc
  | c :: cs, acc =>
    match digitVal? base c with
    | some d => strtoul_digits base cs (min (acc * base + d) ULONG_MAX)
    | none => acc

/-- Leading-whitespace skip of `strtoul`. -/
def drop_isspace : List Char → List Char
  | [] => []
  | c :: cs => if c_isspace c then drop_isspace cs else c :: cs

/-- C `strtoul(s, NULL, 0)`: skip whitespace, take an optional sign, detect
the base (`0x`/`0X` hex if a hex digit follows, a leading `0` octal, else
decimal), accumulate digits saturating at `ULONG_MAX`; a leading `-`
negates the result in unsigned 64-bit arithmetic. -/
def strtoul0 (s : List Char) : Nat :=
  let s1 := drop_isspace s
  let neg : Bool := match s1 with
    | c :: _ => if c.toNat = 45 then true else false
    | [] => false
  let s2 := match s1 with
    | c :: rest => if c.toNat = 45 ∨ c.toNat = 43 then rest else s1
    | [] => s1
  let v := match s2 with
    | c0 :: cx :: rest =>
      if c0.toNat = 48 ∧ (cx.toNat = 120 ∨ cx.toNat = 88) then
        if (digitVal? 16 (rest.headD ' ')).isSome then strtoul_digits 16 rest 0
        else 0
      else if c0.toNat = 48 then strtoul_digits 8 (cx :: rest) 0
      else strtoul_digits 10 s2 0
    | [c0] => if c0.toNat = 48 then 0 else strtoul_digits 10 s2 0
    | [] => 0
  if neg then (2 ^ 64 - v % 2 ^ 64) % 2 ^ 64 else v

/-- `!strncmp(p, "all", 3)`: the first three characters are `a`, `l`, `l`. -/
def starts_with_all : List Char → Bool
  | c1 :: c2 :: c3 :: _ =>
    if c1.toNat = 97 ∧ c2.toNat = 108 ∧ c3.toNat = 108 then true else false
  | _ => false

/-- `strchr(p, 0x2c)`: the suffix after the first comma, if there is one. -/
def after_comma : List Char → Option (List Char)
  | [] => none
  | c :: cs => if c.toNat = 44 then some cs else after_comma cs

/-- Modelled from the spec: the `node` fields written by the --ignore option
(`ignore_opcode`, a per-opcode bitmask of logical addresses, and
`ignore_la`, a per-address blanket-ignore flag) are declared in
cec-follower.h, outside the staged sources; spec §2-§3 (IgnoreFilter). -/
structure follower_node where
  ignore_opcode : Nat → Nat
  ignore_la : Nat → Bool

/-- Outcome of processing one `--ignore <la>,<opcode>` argument: the
updated node, or rejection (usage message, exit code 1) with the node
untouched. -/
inductive ignore_result where
  | ok (node : follower_node)
  | rejected (node : follower_node)

/-- The OptIgnore case of `main`'s option loop (cec-follower.cpp:396-431):
classify the argument (`all` prefix before/after the comma), parse the
logical address and opcode with `strtoul` into `unsigned` (32-bit)
variables, reject out-of-range values and the `all,all` combination, and
otherwise record the rule in `ignore_opcode` or `ignore_la`. -/
def opt_ignore (optarg : List Char) (node : follower_node) : ignore_result :=
  let all_la := starts_with_all optarg
  let sep := after_comma optarg
  let all_opcodes := match sep with
    | none => true
    | some rest => starts_with_all rest
  let la := if all_la then 0 else strtoul0 optarg % 2 ^ 32
  let la_mask := if all_la then 0xffff else 1 <<< la
  if all_la = false ∧ la > 15 then
    .rejected node
  else if all_opcodes = false then
    let opcode := strtoul0 (sep.getD []) % 2 ^ 32
    if opcode > 255 then .rejected node
    else .ok { node with ignore_opcode := (Function.update node.ignore_opcode
      opcode (node.ignore_opcode opcode ||| la_mask)) }
  else if all_la ∧ all_opcodes then
    .rejected node
  else
    .ok { node with ignore_la := Function.update node.ignore_la la true }

/-- C9: the ignore rule `all,all` is rejected (usage and exit code 1)
without setting any `ignore_opcode` mask or `ignore_la` flag; every input
naming all logical addresses together with one opcode (an `all` prefix, a
comma, and an opcode part that is not `all` and parses to at most 255) is
accepted and ORs all 16 addresses into that opcode's ignore mask; every
input naming one address together with all opcodes (an address part that is
not `all` and parses to at most 15, a comma, and an `all` suffix) is
accepted and sets that address's blanket-ignore flag. -/
theorem C9_ignore_option_rules (node : follower_node) :
    opt_ignore ['a', 'l', 'l', ',', 'a', 'l', 'l'] node = .rejected node ∧
    (∀ s rest, starts_with_all s = true → after_comma s = some rest →
      starts_with_all rest = false → strtoul0 rest % 2 ^ 32 ≤ 255 →
      opt_ignore s node =
        .ok { node with ignore_opcode := (Function.update node.ignore_opcode
          (strtoul0 rest % 2 ^ 32)
          (node.ignore_opcode (strtoul0 rest % 2 ^ 32) ||| 0xffff)) }) ∧
    (∀ s rest, starts_with_all s = false → after_comma s = some rest →
      starts_with_all rest = true → strtoul0 s % 2 ^ 32 ≤ 15 →
      opt_ignore s node =
        .ok { node with ignore_la := (Function.update node.ignore_la
          (strtoul0 s % 2 ^ 32) true) }) := by
  refine ⟨rfl, ?_, ?_⟩
  · intro s rest hs hc hr hop
    simp only [opt_ignore, hs, hc, hr, Option.getD_some]
    norm_num
    intro h
    exact absurd h (by omega)
  · intro s rest hs hc hr hla
    simp only [opt_ignore, hs, hc, hr, Option.getD_some]
    norm_num
    intro h
    exact absurd h (by omega)
